import Mathlib

/-!
Shallow embedding of the query-routing, concurrent-dispatch and content-retrieval
core of the AgenticAIWorkflowsV1 repository (src/orchestrator.py,
src/content_processor.py, src/models.py), together with theorems settling the
frozen claims about its specification.

Python strings are modelled as `List Char` where character-level algorithms run
(content_processor.py) and as `String` at the orchestrator level.  Machine
integers are `Nat` (all indices are non-negative; the one place Python can form
a negative intermediate, `start + chunk_size - overlap_size`, is immediately
passed through `max` with a positive value, so truncated `Nat` subtraction gives
the same result — noted at the definition).  Fallible Python code is embedded in
`Except PyErr`.
-/

set_option maxRecDepth 100000

namespace AgenticWorkflows

/-- Python exceptions, as far as the embedded code distinguishes them.
`exc` is a generic exception carrying `str(e)`; `attributeError a` is the
`AttributeError` raised by reading an attribute `a` that was never assigned;
`keyError k` is a failed dict lookup. -/
inductive PyErr where
  | exc : String → PyErr
  | attributeError : String → PyErr
  | keyError : String → PyErr
deriving DecidableEq

/-- Python `str(e)` for the exceptions above.  `AttributeError` is only ever
raised on the orchestrator object in the embedded code, hence the class name. -/
def PyErr.str : PyErr → String
  | .exc m => m
  | .attributeError a => "'AgenticOrchestrator' object has no attribute '" ++ a ++ "'"
  | .keyError k => "'" ++ k ++ "'"

/-! ### Python string primitives used by content_processor.py -/

/-- ASCII whitespace stripped by Python `str.strip()` (the embedded texts are
ASCII, so the unicode cases of `str.isspace` do not arise). -/
def isPySpace (c : Char) : Bool :=
  c = ' ' || c = '\t' || c = '\n' || c = '\r' || c = '\x0b' || c = '\x0c'

/-- Python `s.strip()`. -/
def pyStrip (l : List Char) : List Char :=
  ((l.dropWhile isPySpace).reverse.dropWhile isPySpace).reverse

/-- Python `s.strip()` on `String`. -/
def pyStripStr (s : String) : String :=
  ⟨pyStrip s.data⟩

/-- Python slice `s[a:b]` for `0 ≤ a`, `0 ≤ b` (clipped to the string length,
empty when `a ≥ b`). -/
def slice (l : List Char) (a b : Nat) : List Char :=
  (l.take b).drop a

/-- Does `needle` occur in `hay` starting at index `i`? -/
def matchesAt (needle hay : List Char) (i : Nat) : Bool :=
  needle.isPrefixOf (hay.drop i)

/-- Python `hay.rfind(needle, s, e)`: the largest `i` with `s ≤ i`,
`i + needle.length ≤ min e hay.length` and `needle` occurring at `i`;
`none` for Python's `-1`. -/
def pyRfind (needle hay : List Char) (s e : Nat) : Option Nat :=
  let e' := min e hay.length
  ((List.range' s (e' - s)).filter
    (fun i => decide (i + needle.length ≤ e') && matchesAt needle hay i)).getLast?

/-- A word character of the regex `\w` (the embedded texts are ASCII). -/
def isWordChar (c : Char) : Bool := c.isAlphanum || c = '_'

/-- Accumulator worker for `pyWords`. -/
def wordsAux : List Char → List Char → List (List Char)
  | [], acc => if acc.isEmpty then [] else [acc.reverse]
  | c :: cs, acc =>
    if isWordChar c then wordsAux cs (c :: acc)
    else if acc.isEmpty then wordsAux cs []
    else acc.reverse :: wordsAux cs []

/-- Python `re.findall(r'\w+', s)`: the maximal runs of word characters. -/
def pyWords (s : List Char) : List (List Char) := wordsAux s []

/-- The distinct elements of `l` in first-occurrence order: the deterministic
list view of a Python `set` built from `l` (only cardinalities and membership
of the set are ever consumed, so the order is immaterial). -/
def dedupFirst (l : List (List Char)) : List (List Char) :=
  l.foldl (fun acc x => if x ∈ acc then acc else acc ++ [x]) []

/-- Python `s.lower()` (ASCII). -/
def toLowerL (s : List Char) : List Char := s.map Char.toLower

/-- Worker for `pyIn`. -/
def pyInAux (needle : List Char) : List Char → Bool
  | [] => needle.isEmpty
  | c :: cs => needle.isPrefixOf (c :: cs) || pyInAux needle cs

/-- Python substring containment `needle in hay`. -/
def pyIn (needle hay : List Char) : Bool := pyInAux needle hay

/-! ### ContentChunk and ContentProcessor (content_processor.py lines 14-100)

`chunk_id` (an md5-derived tag) and `created_at` (wall-clock time) are derived
fields of `ContentChunk` used by no claim and not purely embeddable
(cryptographic hash / real time); they are omitted from the structure. -/

/-- A metadata value: the chunker writes `Nat` entries, ingestion writes
strings; this covers every value the embedded code stores. -/
inductive MetaVal where
  | nat : Nat → MetaVal
  | str : String → MetaVal
deriving DecidableEq

/-- A Python dict used as chunk metadata: association list in insertion order,
keys unique. -/
abbrev Metadata := List (String × MetaVal)

/-- Python `d[k] = v`: overwrite in place if the key exists, else append. -/
def dictSet : Metadata → String → MetaVal → Metadata
  | [], k, v => [(k, v)]
  | (k', v') :: m, k, v =>
    if k' = k then (k', v) :: m else (k', v') :: dictSet m k v

/-- content_processor.py lines 14-23: a chunk of content with provenance. -/
structure ContentChunk where
  content : List Char
  source : String
  source_type : String
  metadata : Metadata
deriving DecidableEq

/-- Read a `Nat`-valued metadata key of a chunk. -/
def metaNat (c : ContentChunk) (k : String) : Option Nat :=
  match c.metadata.lookup k with
  | some (.nat n) => some n
  | _ => none

/-- content_processor.py lines 43-48: the chunker's configuration. -/
structure ContentProcessor where
  chunk_size : Nat
  overlap_size : Nat
deriving DecidableEq

/-- `ContentProcessor.__init__` (lines 46-48; source defaults are 1000/200):
it assigns the two fields and performs no validation.  The `Except` return
type makes the spec's construction-failure claim statable; the translation of
the source body is unconditionally `ok`. -/
def ContentProcessor.init (chunk_size overlap_size : Nat) : Except PyErr ContentProcessor :=
  .ok { chunk_size := chunk_size, overlap_size := overlap_size }

/-- The four sentence terminators of `_find_sentence_boundary` (line 91),
tried in exactly this order. -/
def sentenceEndings : List (List Char) := [['.'], ['!'], ['?'], ['\n', '\n']]

/-- The `for ending in sentence_endings` loop of `_find_sentence_boundary`
(lines 94-98): the first terminator kind whose rightmost occurrence lies
strictly past `ss` wins and the loop breaks; otherwise the preferred end is
kept. -/
def fsbLoop (text : List Char) (ss se preferred_end : Nat) : List (List Char) → Nat
  | [] => preferred_end
  | e :: rest =>
    match pyRfind e text ss se with
    | some p => if ss < p then p + 1 else fsbLoop text ss se preferred_end rest
    | none => fsbLoop text ss se preferred_end rest

/-- `ContentProcessor._find_sentence_boundary` (lines 84-100).
`preferred_end - 100` is truncated `Nat` subtraction: Python's
`max(start, preferred_end - 100)` with a possibly negative second argument
agrees with `max start (preferred_end - 100)` over `Nat`. -/
def find_sentence_boundary (text : List Char) (start preferred_end : Nat) : Nat :=
  fsbLoop text (max start (preferred_end - 100)) (min text.length (preferred_end + 100))
    preferred_end sentenceEndings

/-- The chunk end chosen by one iteration of `chunk_text` (lines 59-66):
candidate `start + chunk_size`, snapped to the sentence boundary when the
candidate falls before the text end and the boundary is past `start`. -/
def chunkEndAt (p : ContentProcessor) (text : List Char) (start : Nat) : Nat :=
  if start + p.chunk_size < text.length then
    if start < find_sentence_boundary text start (start + p.chunk_size) then
      find_sentence_boundary text start (start + p.chunk_size)
    else start + p.chunk_size
  else start + p.chunk_size

/-- The advance of `chunk_text` (line 80):
`start = max(start + chunk_size - overlap_size, end)`.  Truncated `Nat`
subtraction agrees with Python here: when `start + chunk_size < overlap_size`
Python's left argument is negative and the `max` picks `end ≥ 1`, exactly as
`max 0 end` does. -/
def nextStart (p : ContentProcessor) (text : List Char) (start : Nat) : Nat :=
  max (start + p.chunk_size - p.overlap_size) (chunkEndAt p text start)

/-- Lines 70-75: `metadata.copy() if metadata else {}` updated with the three
chunk keys. -/
def mkChunkMeta (md : Option Metadata) (start e idx : Nat) : Metadata :=
  dictSet (dictSet (dictSet (md.getD []) "chunk_start" (.nat start))
    "chunk_end" (.nat e)) "chunk_index" (.nat idx)

/-- The `while start < len(text)` loop of `chunk_text` (lines 58-81), with an
explicit fuel parameter standing for the possibility of divergence: `none`
means the Python loop would still be running after `fuel` iterations.  `idx`
is `len(chunks)`, the number of chunks emitted so far. -/
def chunkLoop (p : ContentProcessor) (text : List Char) (source source_type : String)
    (md : Option Metadata) : Nat → Nat → Nat → Option (List ContentChunk)
  | 0, _, _ => none
  | fuel + 1, start, idx =>
    if start < text.length then
      if (pyStrip (slice text start (chunkEndAt p text start))).isEmpty then
        chunkLoop p text source source_type md fuel (nextStart p text start) idx
      else
        match chunkLoop p text source source_type md fuel (nextStart p text start) (idx + 1) with
        | some rest =>
          some ({ content := pyStrip (slice text start (chunkEndAt p text start)),
                  source := source, source_type := source_type,
                  metadata := mkChunkMeta md start (chunkEndAt p text start) idx } :: rest)
        | none => none
    else some []

/-- `ContentProcessor.chunk_text` (lines 50-82).  The fuel `text.length + 1`
is sufficient whenever `chunk_size ≥ 1`, because `start` strictly increases
each iteration (proved below); `none` reports divergence of the source loop. -/
def chunk_text (p : ContentProcessor) (text : List Char) (source source_type : String)
    (md : Option Metadata) : Option (List ContentChunk) :=
  if text.isEmpty || text.length < p.chunk_size then
    some [{ content := text, source := source, source_type := source_type,
            metadata := md.getD [] }]
  else
    chunkLoop p text source source_type md (text.length + 1) 0 0

/-! ### ContentIndex (content_processor.py lines 189-271) -/

/-- `ContentIndex._calculate_relevance_score` (lines 235-254).  `query_words`
is the caller's query word set, passed as its deduplicated list view.  The
accumulators are exact in binary floating point (halves), so `ℚ` is a faithful
model. -/
def calculate_relevance_score (content : List Char) (query_words : List (List Char)) : ℚ :=
  let content_words := dedupFirst (pyWords content)
  let exact_matches := (query_words.filter (fun w => decide (w ∈ content_words))).length
  let substr_matches : ℚ :=
    query_words.foldl
      (fun acc qw => if content_words.any (fun cw => pyIn qw cw) then acc + (1 / 2 : ℚ) else acc) 0
  let phrase_matches := (query_words.filter (fun qw => pyIn qw content)).length
  (exact_matches : ℚ) * 2 + substr_matches + (phrase_matches : ℚ) * (1 / 2)

/-- `|queryWords ∩ contentWords|`: the count of query words occurring among
the content's words. -/
def exactCount (content : List Char) (query_words : List (List Char)) : Nat :=
  (query_words.filter (fun w => decide (w ∈ dedupFirst (pyWords content)))).length

/-- The count of query words that are a substring of some content word. -/
def substrCount (content : List Char) (query_words : List (List Char)) : Nat :=
  (query_words.filter (fun qw => (dedupFirst (pyWords content)).any (fun cw => pyIn qw cw))).length

/-- The count of query words that are a literal substring of the content. -/
def phraseCount (content : List Char) (query_words : List (List Char)) : Nat :=
  (query_words.filter (fun qw => pyIn qw content)).length

/-- The relevance score exactly as the specification words it:
`2 × |queryWords ∩ contentWords| + 0.5 × (count of query words that are a
substring of some content word) + 0.5 × (count of query words that are a
literal substring of the content)`. -/
def specRelevanceScore (content : List Char) (query_words : List (List Char)) : ℚ :=
  2 * (exactCount content query_words : ℚ)
    + (1 / 2) * (substrCount content query_words : ℚ)
    + (1 / 2) * (phraseCount content query_words : ℚ)

/-- The in-memory content index (lines 192-195): the full chunk sequence and
the two bucket views, each a dict in insertion order. -/
structure ContentIndex where
  chunks : List ContentChunk
  index_by_source : List (String × List ContentChunk)
  index_by_type : List (String × List ContentChunk)
deriving DecidableEq

/-- `ContentIndex.__init__`: all three views empty. -/
def ContentIndex.empty : ContentIndex := ⟨[], [], []⟩

/-- Lines 202-210: `if key not in d: d[key] = []` then `d[key].append(c)`. -/
def bucketAppend (m : List (String × List ContentChunk)) (k : String) (c : ContentChunk) :
    List (String × List ContentChunk) :=
  if (m.lookup k).isSome then
    m.map (fun p => if p.1 = k then (p.1, p.2 ++ [c]) else p)
  else m ++ [(k, [c])]

/-- `ContentIndex.add_chunks` (lines 197-210): appends each chunk to the full
sequence and to its source and type buckets, in the given order.  The only
state-mutating operation of the index. -/
def add_chunks (s : ContentIndex) (cs : List ContentChunk) : ContentIndex :=
  cs.foldl
    (fun st c =>
      { chunks := st.chunks ++ [c],
        index_by_source := bucketAppend st.index_by_source c.source c,
        index_by_type := bucketAppend st.index_by_type c.source_type c })
    s

/-- Insertion into a score-descending list keeping earlier elements first on
ties: the stable behaviour of Python's `list.sort(key=score, reverse=True)`. -/
def sortedInsertDesc (x : ContentChunk × ℚ) : List (ContentChunk × ℚ) → List (ContentChunk × ℚ)
  | [] => [x]
  | y :: ys => if y.2 ≤ x.2 then x :: y :: ys else y :: sortedInsertDesc x ys

/-- Stable sort descending by score (the fold direction makes earlier list
elements win ties, as Python's stable sort does). -/
def sortByScoreDesc (l : List (ContentChunk × ℚ)) : List (ContentChunk × ℚ) :=
  l.foldr sortedInsertDesc []

/-- `ContentIndex.search_chunks` (lines 212-233), in state-passing form: the
returned state is built from the translation of the body, which assigns no
field of `self`.  `source_types` of `none` or the empty list (both falsy in
Python) scan the full chunk sequence. -/
def search_chunks (s : ContentIndex) (query : String) (source_types : Option (List String))
    (max_results : Nat) : List ContentChunk × ContentIndex :=
  let query_lower := toLowerL query.data
  let query_words := dedupFirst (pyWords query_lower)
  let candidates :=
    match source_types with
    | none => s.chunks
    | some ts => if ts.isEmpty then s.chunks
                 else (ts.map (fun t => (s.index_by_type.lookup t).getD [])).flatten
  let scored := candidates.filterMap (fun c =>
    let sc := calculate_relevance_score (toLowerL c.content) query_words
    if 0 < sc then some (c, sc) else none)
  (((sortByScoreDesc scored).take max_results).map Prod.fst, s)

/-- `ContentIndex.get_chunks_by_source` (lines 256-258), state-passing. -/
def get_chunks_by_source (s : ContentIndex) (source : String) :
    List ContentChunk × ContentIndex :=
  ((s.index_by_source.lookup source).getD [], s)

/-- `ContentIndex.get_chunks_by_type` (lines 260-262), state-passing. -/
def get_chunks_by_type (s : ContentIndex) (source_type : String) :
    List ContentChunk × ContentIndex :=
  ((s.index_by_type.lookup source_type).getD [], s)

/-- The dictionary returned by `ContentIndex.get_stats` (lines 264-271). -/
structure IndexStats where
  total_chunks : Nat
  sources : Nat
  source_types : List String
  chunks_by_type : List (String × Nat)
deriving DecidableEq

/-- `ContentIndex.get_stats` (lines 264-271), state-passing. -/
def get_stats (s : ContentIndex) : IndexStats × ContentIndex :=
  ({ total_chunks := s.chunks.length,
     sources := s.index_by_source.length,
     source_types := s.index_by_type.map Prod.fst,
     chunks_by_type := s.index_by_type.map (fun p => (p.1, p.2.length)) }, s)

/-! ### Data model of the orchestrator (models.py) -/

/-- models.py lines 5-12: the closed enumeration of source types. -/
inductive AgentType where
  | jira | github | api | filesystem | video | s3 | url
deriving DecidableEq, BEq

/-- The string value of an `AgentType` (the `str`-enum's value). -/
def AgentType.value : AgentType → String
  | .jira => "jira"
  | .github => "github"
  | .api => "api"
  | .filesystem => "filesystem"
  | .video => "video"
  | .s3 => "s3"
  | .url => "url"

/-- One result record of a source search (`Dict[str, Any]` in the source):
only its presence and count are consumed by the orchestrator, so a string
dict is a sufficient concrete model. -/
abbrev SearchRecord := List (String × String)

/-- models.py lines 19-24. -/
structure AgentResponse where
  agent_type : AgentType
  success : Bool
  data : List SearchRecord
  error : Option String
  metadata : Option SearchRecord
deriving DecidableEq

/-- models.py lines 14-17 (`max_results: Optional[int] = 10`). -/
structure QueryRequest where
  prompt : String
  max_results : Option Nat
  specific_sources : Option (List AgentType)
deriving DecidableEq

/-- models.py lines 26-32.  `execution_time` is wall-clock time
(`time.time()` deltas), not purely embeddable and used by no claim; it is
omitted. -/
structure WorkflowResponse where
  query : String
  agents_used : List AgentType
  results : List AgentResponse
  summary : String
  total_results : Nat
deriving DecidableEq

/-! ### The orchestrator (orchestrator.py)

Each registered agent is an external collaborator; its three operations are
oracles that may raise (`Except PyErr`).  The completion backend's
`chat_completion` is a fallible remote call whose prompt is a deterministic
string built from the query and the collected results
(orchestrator.py lines 190-224), so it is modelled as an oracle over those
two inputs directly. -/

/-- The three-operation capability set of one registered source
(agents/base_agent.py). -/
structure Agent where
  is_relevant : String → Except PyErr Bool
  search : String → Option Nat → Except PyErr AgentResponse
  health_check : Except PyErr Bool

/-- The orchestrator's state after `__init__` (orchestrator.py lines 21-24):
it assigns exactly the attributes `llm_client` and `agents`.  In particular
`openai_client`, read at lines 129 and 273, is assigned nowhere in the class,
so reading it raises `AttributeError`.  `agents` is a dict in insertion
order. -/
structure Orchestrator where
  llm_chat_completion : String → List AgentResponse → Except PyErr String
  agents : List (AgentType × Agent)

/-- Dict lookup `self.agents[t]` / membership `t in self.agents`. -/
def lookupAgent (o : Orchestrator) (t : AgentType) : Option Agent :=
  (o.agents.find? (fun p => p.1 == t)).map (fun p => p.2)

/-- The static-relevance tier (orchestrator.py lines 118-127): each agent's
`is_relevant` is consulted; a raised exception is logged and the agent
skipped. -/
def static_relevant (o : Orchestrator) (query : String) : List AgentType :=
  o.agents.filterMap (fun ta =>
    match ta.2.is_relevant query with
    | .ok true => some ta.1
    | .ok false => none
    | .error _ => none)

/-- The fall-through of `_determine_relevant_agents` past the explicit tier
(lines 118-137).  When the static tier is empty, line 129 evaluates
`not relevant_agents and self.openai_client`; `openai_client` was never
assigned, so the read raises `AttributeError` and the AI tier (line 130) and
the broadcast fallback (lines 132-135) are never reached.  When the static
tier is non-empty the conjunction short-circuits, line 133's condition is
false, and the static list is returned. -/
def determine_from_relevance (o : Orchestrator) (query : String) : Except PyErr (List AgentType) :=
  let relevant := static_relevant o query
  if relevant.isEmpty then .error (.attributeError "openai_client")
  else .ok relevant

/-- `AgenticOrchestrator._determine_relevant_agents` (lines 112-137).  A
supplied non-empty source list (Python truthiness: `None` and `[]` both fall
through) is intersected with the registered agents and used directly. -/
def determine_relevant_agents (o : Orchestrator) (query : String)
    (specific_sources : Option (List AgentType)) : Except PyErr (List AgentType) :=
  match specific_sources with
  | some l =>
    if l.isEmpty then determine_from_relevance o query
    else .ok (l.filter (fun t => (lookupAgent o t).isSome))
  | none => determine_from_relevance o query

/-- Lines 78-84: the failed `AgentResponse` substituted for an agent whose
search raised. -/
def failed_response (t : AgentType) (e : PyErr) : AgentResponse :=
  { agent_type := t, success := false, data := [], error := some e.str, metadata := none }

/-- `AgenticOrchestrator._generate_basic_summary` (lines 232-248). -/
def generate_basic_summary (results : List AgentResponse) : String :=
  let successful := (results.filter (fun r => r.success)).map (fun r => r.agent_type.value)
  let failed := (results.filter (fun r => !r.success)).map (fun r => r.agent_type.value)
  let total := (results.filter (fun r => r.success)).foldl (fun n r => n + r.data.length) 0
  let parts :=
    (if successful.isEmpty then [] else ["Successfully searched: " ++ String.intercalate ", " successful])
    ++ (if failed.isEmpty then [] else ["Failed to search: " ++ String.intercalate ", " failed])
    ++ ["Total results found: " ++ toString total]
  String.intercalate ". " parts ++ "."

/-- `AgenticOrchestrator._generate_summary` (lines 185-230).  `self.llm_client`
is an `LLMClient` instance (never falsy), so the early basic-summary return at
line 188 is dead; the completion attempt falls back to the basic summary on
any raised exception. -/
def generate_summary (o : Orchestrator) (query : String) (results : List AgentResponse) : String :=
  match o.llm_chat_completion query results with
  | .ok resp => pyStripStr resp
  | .error _ => generate_basic_summary results

/-- The body of the `try` block of `process_query` (lines 45-99): routing,
per-agent dispatch with conversion of raised searches into failed responses,
summary, and total count over successful responses. -/
def process_query_body (o : Orchestrator) (req : QueryRequest) : Except PyErr WorkflowResponse := do
  let relevant ← determine_relevant_agents o req.prompt req.specific_sources
  if relevant.isEmpty then
    return { query := req.prompt, agents_used := [], results := [],
             summary := "No relevant agents found for this query.", total_results := 0 }
  let pairs ← relevant.mapM (fun t =>
    match lookupAgent o t with
    | some a => Except.ok (t, a)
    | none => Except.error (PyErr.keyError t.value))
  let results := pairs.map (fun ta =>
    match ta.2.search req.prompt req.max_results with
    | .ok r => r
    | .error e => failed_response ta.1 e)
  let summary := generate_summary o req.prompt results
  let total_results := (results.filter (fun r => r.success)).foldl (fun n r => n + r.data.length) 0
  return { query := req.prompt, agents_used := relevant, results := results,
           summary := summary, total_results := total_results }

/-- Lines 101-110: the response constructed by the outer `except` handler. -/
def failure_workflow_response (req : QueryRequest) (e : PyErr) : WorkflowResponse :=
  { query := req.prompt, agents_used := [], results := [],
    summary := "Query processing failed: " ++ e.str, total_results := 0 }

/-- `AgenticOrchestrator.process_query` (lines 41-110): the body wrapped in
the catch-all handler, hence a total function into `WorkflowResponse`. -/
def process_query (o : Orchestrator) (req : QueryRequest) : WorkflowResponse :=
  match process_query_body o req with
  | .ok r => r
  | .error e => failure_workflow_response req e

/-- The per-agent status dict of `health_check` (lines 255-266). -/
structure AgentHealth where
  healthy : Bool
  status : String
  error : Option String
deriving DecidableEq

/-- Lines 252-266: the per-agent status map, one entry per registered agent,
a raised per-agent probe caught and recorded. -/
def health_status_map (o : Orchestrator) : List (String × AgentHealth) :=
  o.agents.map (fun ta =>
    (ta.1.value,
      match ta.2.health_check with
      | .ok b => { healthy := b, status := if b then "OK" else "ERROR", error := none }
      | .error e => { healthy := false, status := "ERROR", error := some e.str }))

/-- `AgenticOrchestrator.health_check` (lines 250-274).  After the per-agent
map and the `overall_health` flag are computed, the result dict literal at
lines 270-274 evaluates `self.openai_client is not None`; `openai_client` was
never assigned, so the method raises `AttributeError` instead of returning. -/
def health_check (o : Orchestrator) : Except PyErr (List (String × AgentHealth)) :=
  let statuses := health_status_map o
  let _overall_health := statuses.all (fun p => p.2.healthy)
  .error (.attributeError "openai_client")

/-! ### Concrete fixtures used by the claim theorems -/

/-- A text of 250 lowercase 'a' characters (no sentence terminators). -/
def aText250 : List Char := List.replicate 250 'a'

/-- The chunker configured with `chunk_size=100`, `overlap_size=20`. -/
def p100x20 : ContentProcessor := { chunk_size := 100, overlap_size := 20 }

/-- The `(chunk_start, chunk_end)` metadata pairs of a chunk list. -/
def chunkSpans (l : List ContentChunk) : List (Option Nat × Option Nat) :=
  l.map (fun c => (metaNat c "chunk_start", metaNat c "chunk_end"))

/-- The `chunk_end` metadata values of a chunk list, in order. -/
def chunkEnds (l : List ContentChunk) : List Nat :=
  l.filterMap (fun c => metaNat c "chunk_end")

/-- The spans produced for the 250-'a' text at `chunk_size=100`,
`overlap_size=20`. -/
def c4Spans : Option (List (Option Nat × Option Nat)) :=
  (chunk_text p100x20 aText250 "doc" "file" none).map chunkSpans

/-- A text holding a '.' at index 2 and a '!' at index 6 (length 17). -/
def c8Text : List Char := "ab. cd! hijklmnop".data

/-- Chunk A of the relevance-scoring example. -/
def chunkA : ContentChunk :=
  { content := "a file had an error today".data, source := "docA", source_type := "file",
    metadata := [] }

/-- Chunk B of the relevance-scoring example. -/
def chunkB : ContentChunk :=
  { content := "a file was opened".data, source := "docB", source_type := "file",
    metadata := [] }

/-- Chunk C of the relevance-scoring example. -/
def chunkC : ContentChunk :=
  { content := "nothing relevant".data, source := "docC", source_type := "file",
    metadata := [] }

/-- The index holding exactly chunks A, B, C. -/
def c7Index : ContentIndex := add_chunks ContentIndex.empty [chunkA, chunkB, chunkC]

/-- The word set of the query "file error", as a list. -/
def qw7 : List (List Char) := ["file".data, "error".data]

/-- An agent whose static relevance predicate returns false and whose search
is never reached. -/
def irrelevantAgent : Agent :=
  { is_relevant := fun _ => .ok false,
    search := fun _ _ => .error (.exc "unreachable"),
    health_check := .ok true }

/-- An orchestrator with all seven source types registered, every static
relevance predicate returning false, and a working completion backend. -/
def allIrrelevantOrch : Orchestrator :=
  { llm_chat_completion := fun _ _ => .ok "a summary",
    agents := [(.jira, irrelevantAgent), (.github, irrelevantAgent), (.api, irrelevantAgent),
               (.filesystem, irrelevantAgent), (.video, irrelevantAgent), (.s3, irrelevantAgent),
               (.url, irrelevantAgent)] }

/-- A query request with no explicit source list. -/
def c2Request : QueryRequest :=
  { prompt := "zzz", max_results := some 10, specific_sources := none }

/-- An agent whose search raises the given message. -/
def throwingAgent (msg : String) : Agent :=
  { is_relevant := fun _ => .ok true,
    search := fun _ _ => .error (.exc msg),
    health_check := .ok true }

/-- An agent whose search succeeds with the given data. -/
def succeedingAgent (t : AgentType) (d : List SearchRecord) : Agent :=
  { is_relevant := fun _ => .ok true,
    search := fun _ _ => .ok { agent_type := t, success := true, data := d, error := none,
                               metadata := none },
    health_check := .ok true }

/-- Two sources: A (jira) whose search raises "connection refused", B (github)
whose search succeeds with data `d`; arbitrary completion backend `llm`. -/
def fanoutOrch (llm : String → List AgentResponse → Except PyErr String)
    (d : List SearchRecord) : Orchestrator :=
  { llm_chat_completion := llm,
    agents := [(.jira, throwingAgent "connection refused"),
               (.github, succeedingAgent .github d)] }

/-- The request dispatching to exactly the two sources of `fanoutOrch`. -/
def fanoutReq : QueryRequest :=
  { prompt := "find failures", max_results := some 10,
    specific_sources := some [.jira, .github] }

/-- Concrete three-element data for the fan-out witness. -/
def fanoutD : List SearchRecord := [[("k", "1")], [("k", "2")], [("k", "3")]]

/-- Concrete completion backend for the fan-out witness. -/
def fanoutLLM : String → List AgentResponse → Except PyErr String := fun _ _ => .ok "ok"

/-! ### Theorems settling the claims -/

/-- C1: for every query request, `process_query` returns a well-formed
`WorkflowResponse` and never propagates an exception (it is a total function
into `WorkflowResponse`): either the try-body succeeded and its response is
returned, or the body raised and the handler converts the exception into a
response with empty `agents_used` and `results`, `total_results = 0`, and a
summary describing the failure. -/
theorem process_query_never_raises (o : Orchestrator) (req : QueryRequest) :
    (∃ r, process_query_body o req = .ok r ∧ process_query o req = r) ∨
    (∃ e, process_query_body o req = .error e ∧
      process_query o req =
        { query := req.prompt, agents_used := [], results := [],
          summary := "Query processing failed: " ++ e.str, total_results := 0 }) := by
  cases h : process_query_body o req with
  | ok r => exact Or.inl ⟨r, rfl, by simp [process_query, h]⟩
  | error e => exact Or.inr ⟨e, rfl, by simp [process_query, h, failure_workflow_response]⟩

/-- C2 (code bug): with no explicit source list and every static relevance
predicate false, the router does not reach the broadcast fallback: reading the
never-assigned `openai_client` attribute at orchestrator.py line 129 raises
`AttributeError`, so `process_query` returns the outer failure response with
empty `agents_used`/`results` instead of querying every registered source. -/
theorem broadcast_fallback_unreachable :
    determine_relevant_agents allIrrelevantOrch "zzz" none =
      .error (.attributeError "openai_client") ∧
    process_query allIrrelevantOrch c2Request =
      { query := "zzz", agents_used := [], results := [],
        summary := "Query processing failed: 'AgenticOrchestrator' object has no attribute 'openai_client'",
        total_results := 0 } :=
  ⟨rfl, rfl⟩

/-- C3: when several selected sources are dispatched, a raised search is
converted into a failed `AgentResponse` for that source while the sibling's
successful response is collected unaffected; both appear in `results` in
dispatch order, and `total_results` sums data lengths over successful
responses only (here 3). -/
theorem fanout_isolation (llm : String → List AgentResponse → Except PyErr String)
    (d : List SearchRecord) (hd : d.length = 3) :
    (process_query (fanoutOrch llm d) fanoutReq).results =
      [failed_response .jira (.exc "connection refused"),
       { agent_type := .github, success := true, data := d, error := none, metadata := none }] ∧
    (process_query (fanoutOrch llm d) fanoutReq).total_results = 3 ∧
    (process_query (fanoutOrch llm d) fanoutReq).agents_used = [.jira, .github] := by
  have hbody : process_query_body (fanoutOrch llm d) fanoutReq = .ok
      { query := "find failures",
        agents_used := [.jira, .github],
        results := [failed_response .jira (.exc "connection refused"),
          { agent_type := .github, success := true, data := d, error := none, metadata := none }],
        summary := generate_summary (fanoutOrch llm d) "find failures"
          [failed_response .jira (.exc "connection refused"),
           { agent_type := .github, success := true, data := d, error := none, metadata := none }],
        total_results := 0 + d.length } := rfl
  have hp : process_query (fanoutOrch llm d) fanoutReq =
      { query := "find failures",
        agents_used := [.jira, .github],
        results := [failed_response .jira (.exc "connection refused"),
          { agent_type := .github, success := true, data := d, error := none, metadata := none }],
        summary := generate_summary (fanoutOrch llm d) "find failures"
          [failed_response .jira (.exc "connection refused"),
           { agent_type := .github, success := true, data := d, error := none, metadata := none }],
        total_results := 0 + d.length } := by
    unfold process_query
    rw [hbody]
  exact ⟨by rw [hp], by rw [hp]; simp [hd], by rw [hp]⟩

/-- Witness for C3 at concrete three-element data. -/
theorem fanout_isolation_witness :
    fanoutD.length = 3 ∧
    ((process_query (fanoutOrch fanoutLLM fanoutD) fanoutReq).results =
      [failed_response .jira (.exc "connection refused"),
       { agent_type := .github, success := true, data := fanoutD, error := none,
         metadata := none }] ∧
     (process_query (fanoutOrch fanoutLLM fanoutD) fanoutReq).total_results = 3 ∧
     (process_query (fanoutOrch fanoutLLM fanoutD) fanoutReq).agents_used = [.jira, .github]) :=
  ⟨by decide, fanout_isolation fanoutLLM fanoutD (by decide)⟩

/-- C9 (code bug): `health_check` computes a per-source status map covering
every registered source, but then always raises `AttributeError` while
building its result dict (orchestrator.py line 273 reads the never-assigned
`openai_client`), so it never returns the map to the caller. -/
theorem health_check_always_raises (o : Orchestrator) :
    health_check o = .error (.attributeError "openai_client") ∧
    (health_status_map o).map Prod.fst = o.agents.map (fun ta => ta.1.value) := by
  refine ⟨rfl, ?_⟩
  simp [health_status_map]

/-- C10: the four read operations of the content index leave all three views
of the state exactly as they were; only `add_chunks` mutates the index. -/
theorem index_reads_leave_state (s : ContentIndex) (query : String)
    (source_types : Option (List String)) (max_results : Nat) (src ty : String) :
    (search_chunks s query source_types max_results).2 = s ∧
    (get_chunks_by_source s src).2 = s ∧
    (get_chunks_by_type s ty).2 = s ∧
    (get_stats s).2 = s :=
  ⟨rfl, rfl, rfl, rfl⟩

/-- C4 (counterexample): chunking 250 'a's with `chunk_size=100`,
`overlap_size=20` yields spans [0,100), [100,200), [200,300) — the second
chunk starts at 100, not at 80, and the third at 200, not 160: the claimed
overlapping spans are refuted. -/
theorem chunk_overlap_spans_refuted :
    c4Spans = some [(some 0, some 100), (some 100, some 200), (some 200, some 300)] ∧
    c4Spans ≠ some [(some 0, some 100), (some 80, some 180), (some 160, some 250)] := by
  have h1 : c4Spans = some [(some 0, some 100), (some 100, some 200), (some 200, some 300)] := by
    decide
  refine ⟨h1, ?_⟩
  rw [h1]
  decide

/-- C4 (amended): chunking the 250-'a' text with `chunk_size=100`,
`overlap_size=20` produces exactly three chunks of spans [0,100), [100,200)
and [200,250) (contents of lengths 100, 100 and 50); the recorded
`chunk_end` of the final chunk is 300 = start + chunk_size, and no overlap
occurs because the advance takes the maximum of `start + 80` and the previous
chunk end. -/
theorem chunk_boundary_example_actual :
    (chunk_text p100x20 aText250 "doc" "file" none).map
        (fun l => l.map (fun c => (metaNat c "chunk_start", metaNat c "chunk_end", c.content.length)))
      = some [(some 0, some 100, 100), (some 100, some 200, 100), (some 200, some 300, 50)] := by
  decide

/-- C5 (counterexample): on the 250-'a' text with `chunk_size=100`,
`overlap_size=20` the final chunk's `chunk_end` metadata is 300, not the text
length 250. -/
theorem chunk_final_end_not_text_length :
    (chunk_text p100x20 aText250 "doc" "file" none).map chunkEnds = some [100, 200, 300] ∧
    ([100, 200, 300].getLast? = some 300 ∧ (300 : Nat) ≠ aText250.length) := by
  constructor
  · decide
  · decide

/-- C6 (counterexample): constructing the chunker with
`chunk_size = 10 ≤ 20 = overlap_size` succeeds — `__init__` performs no
validation — refuting that construction succeeds only when
`chunk_size > overlap_size`. -/
theorem chunker_accepts_inverted_sizes :
    ContentProcessor.init 10 20 = .ok { chunk_size := 10, overlap_size := 20 } ∧
    ¬ (10 > 20) :=
  ⟨rfl, by decide⟩

/-- C8 (counterexample): on a text with '.' at index 2 and '!' at index 6,
both inside the search window [0,17), the boundary is snapped to 3 (just
after the rightmost '.'), not to 7 (just after the rightmost terminator of
any kind), refuting the rightmost-of-all-kinds claim. -/
theorem boundary_not_rightmost_terminator :
    find_sentence_boundary c8Text 0 10 = 3 ∧
    pyRfind ['.'] c8Text 0 17 = some 2 ∧
    pyRfind ['!'] c8Text 0 17 = some 6 ∧
    (3 : Nat) ≠ 6 + 1 := by
  decide

/-- Auxiliary: a fold adding 1/2 per satisfied element equals the filter
count times 1/2. -/
theorem foldl_half_eq (p : List Char → Bool) (l : List (List Char)) (a : ℚ) :
    l.foldl (fun acc w => if p w then acc + (1 / 2 : ℚ) else acc) a
      = a + ((l.filter p).length : ℚ) * (1 / 2) := by
  induction l generalizing a with
  | nil => simp
  | cons x xs ih =>
    cases h : p x with
    | true =>
      simp only [List.foldl_cons, List.filter_cons, h, if_true, List.length_cons]
      rw [ih]
      push_cast
      ring
    | false =>
      simp only [List.foldl_cons, List.filter_cons, h, Bool.false_eq_true, if_false]
      rw [ih]

/-- Auxiliary: the score computed by the code equals the specification's
closed formula. -/
theorem score_code_eq_spec (content : List Char) (query_words : List (List Char)) :
    calculate_relevance_score content query_words = specRelevanceScore content query_words := by
  simp only [calculate_relevance_score, specRelevanceScore, exactCount, substrCount, phraseCount]
  rw [foldl_half_eq]
  ring

/-- Auxiliary: the query words of "file error". -/
theorem qw7_eq : dedupFirst (pyWords (toLowerL ['f','i','l','e',' ','e','r','r','o','r'])) = qw7 := by
  decide

/-- Auxiliary: chunk A scores 6. -/
theorem scoreA : calculate_relevance_score (toLowerL chunkA.content) qw7 = 6 := by
  rw [score_code_eq_spec]
  simp only [specRelevanceScore]
  rw [(by decide : exactCount (toLowerL chunkA.content) qw7 = 2),
      (by decide : substrCount (toLowerL chunkA.content) qw7 = 2),
      (by decide : phraseCount (toLowerL chunkA.content) qw7 = 2)]
  norm_num

/-- Auxiliary: chunk B scores 3. -/
theorem scoreB : calculate_relevance_score (toLowerL chunkB.content) qw7 = 3 := by
  rw [score_code_eq_spec]
  simp only [specRelevanceScore]
  rw [(by decide : exactCount (toLowerL chunkB.content) qw7 = 1),
      (by decide : substrCount (toLowerL chunkB.content) qw7 = 1),
      (by decide : phraseCount (toLowerL chunkB.content) qw7 = 1)]
  norm_num

/-- Auxiliary: chunk C scores 0. -/
theorem scoreC : calculate_relevance_score (toLowerL chunkC.content) qw7 = 0 := by
  rw [score_code_eq_spec]
  simp only [specRelevanceScore]
  rw [(by decide : exactCount (toLowerL chunkC.content) qw7 = 0),
      (by decide : substrCount (toLowerL chunkC.content) qw7 = 0),
      (by decide : phraseCount (toLowerL chunkC.content) qw7 = 0)]
  norm_num

/-- Auxiliary: the concrete search over the three example chunks. -/
theorem c7_search : (search_chunks c7Index "file error" none 10).1 = [chunkA, chunkB] := by
  simp only [search_chunks, qw7_eq]
  rw [(by decide : c7Index.chunks = [chunkA, chunkB, chunkC])]
  simp only [List.filterMap_cons, List.filterMap_nil, scoreA, scoreB, scoreC]
  simp [sortByScoreDesc, sortedInsertDesc]
  norm_num

/-- C7: the code's relevance score equals the specification's formula
`2 × exact + 0.5 × substring + 0.5 × phrase` on every input, and the query
"file error" over chunks A "a file had an error today", B "a file was
opened", C "nothing relevant" returns exactly [A, B] in that order (C is
excluded with score 0). -/
theorem search_scoring_matches_spec :
    (∀ (content : List Char) (query_words : List (List Char)),
      calculate_relevance_score content query_words = specRelevanceScore content query_words) ∧
    (search_chunks c7Index "file error" none 10).1 = [chunkA, chunkB] :=
  ⟨score_code_eq_spec, c7_search⟩

/-- Auxiliary: characters of a slice are characters of the text. -/
theorem slice_sub (text : List Char) (a b : Nat) (c : Char) (hc : c ∈ slice text a b) :
    c ∈ text :=
  (List.take_sublist _ _).subset ((List.drop_sublist _ _).subset hc)

/-- Auxiliary: the length of a slice. -/
theorem slice_len (text : List Char) (a b : Nat) :
    (slice text a b).length = min b text.length - a := by
  simp [slice]

/-- Auxiliary: stripping a whitespace-free list is the identity. -/
theorem pyStrip_eq_self (l : List Char) (h : ∀ c ∈ l, isPySpace c = false) :
    pyStrip l = l := by
  have hd : ∀ (m : List Char), (∀ c ∈ m, isPySpace c = false) → m.dropWhile isPySpace = m := by
    intro m hm
    cases m with
    | nil => rfl
    | cons x xs =>
      rw [List.dropWhile_cons]
      simp [hm x (by simp)]
  unfold pyStrip
  rw [hd _ h]
  rw [hd _ (by intro c hc; exact h c (by simpa using hc))]
  simp

/-- Auxiliary: each iteration's chunk end lies strictly past its start. -/
theorem lt_chunkEndAt (p : ContentProcessor) (text : List Char) (start : Nat)
    (hc : 1 ≤ p.chunk_size) : start < chunkEndAt p text start := by
  unfold chunkEndAt
  split
  · split <;> omega
  · omega

/-- Auxiliary: the advance position is at least the chunk end. -/
theorem chunkEndAt_le_nextStart (p : ContentProcessor) (text : List Char) (start : Nat) :
    chunkEndAt p text start ≤ nextStart p text start := by
  unfold nextStart
  omega

/-- Auxiliary: the advance position strictly increases the start. -/
theorem lt_nextStart (p : ContentProcessor) (text : List Char) (start : Nat)
    (hc : 1 ≤ p.chunk_size) : start < nextStart p text start := by
  have := lt_chunkEndAt p text start hc
  unfold nextStart
  omega

/-- Auxiliary: the advance position moves by at least `chunk_size - overlap_size`. -/
theorem nextStart_lower (p : ContentProcessor) (text : List Char) (start : Nat)
    (ho : p.overlap_size ≤ p.chunk_size) :
    start + (p.chunk_size - p.overlap_size) ≤ nextStart p text start := by
  unfold nextStart
  omega

/-- Auxiliary: with `chunk_size ≥ 1` the chunking loop finishes within
`text.length + 1` iterations (the fuel never runs out). -/
theorem chunkLoop_total (p : ContentProcessor) (text : List Char) (src ty : String)
    (md : Option Metadata) (hc : 1 ≤ p.chunk_size) :
    ∀ (fuel start idx : Nat), text.length - start < fuel →
      ∃ l, chunkLoop p text src ty md fuel start idx = some l := by
  intro fuel
  induction fuel with
  | zero => intro start idx h; exact absurd h (Nat.not_lt_zero _)
  | succ f ih =>
    intro start idx h
    rw [chunkLoop]
    by_cases hs : start < text.length
    · rw [if_pos hs]
      have hns := lt_nextStart p text start hc
      have hf : text.length - nextStart p text start < f := by omega
      by_cases hp : (pyStrip (slice text start (chunkEndAt p text start))).isEmpty
      · rw [if_pos hp]
        exact ih _ idx hf
      · rw [if_neg hp]
        obtain ⟨rest, hrest⟩ := ih (nextStart p text start) (idx + 1) hf
        rw [hrest]
        exact ⟨_, rfl⟩
    · rw [if_neg hs]
      exact ⟨[], rfl⟩

/-- Auxiliary: looking up the key just set. -/
theorem lookup_dictSet_same (m : Metadata) (k : String) (v : MetaVal) :
    (dictSet m k v).lookup k = some v := by
  induction m with
  | nil => simp [dictSet, List.lookup]
  | cons pr m ih =>
    obtain ⟨ka, va⟩ := pr
    by_cases hk : ka = k
    · subst hk
      simp [dictSet, List.lookup]
    · have hbeq : (k == ka) = false := beq_eq_false_iff_ne.mpr (fun hh => hk hh.symm)
      simp only [dictSet, if_neg hk, List.lookup, hbeq]
      exact ih

/-- Auxiliary: setting one key leaves other lookups unchanged. -/
theorem lookup_dictSet_diff (m : Metadata) (k k' : String) (v : MetaVal) (h : k' ≠ k) :
    (dictSet m k v).lookup k' = m.lookup k' := by
  induction m with
  | nil =>
    have hbeq : (k' == k) = false := beq_eq_false_iff_ne.mpr h
    simp [dictSet, List.lookup, hbeq]
  | cons pr m ih =>
    obtain ⟨ka, va⟩ := pr
    by_cases hk : ka = k
    · subst hk
      have hbeq : (k' == ka) = false := beq_eq_false_iff_ne.mpr h
      simp only [dictSet, if_pos rfl, List.lookup, hbeq]
    · simp only [dictSet, if_neg hk, List.lookup]
      cases hbeq : (k' == ka) with
      | true => rfl
      | false => exact ih

/-- Auxiliary: the `chunk_end` entry written by the chunker. -/
theorem metaNat_mkChunkMeta_end (md : Option Metadata) (a b i : Nat)
    (content : List Char) (src ty : String) :
    metaNat { content := content, source := src, source_type := ty,
              metadata := mkChunkMeta md a b i } "chunk_end" = some b := by
  unfold metaNat mkChunkMeta
  rw [lookup_dictSet_diff _ _ _ _ (by decide), lookup_dictSet_same]

/-- Auxiliary: `chunkEnds` of an emitted chunk cons. -/
theorem chunkEnds_cons (content : List Char) (src ty : String) (md : Option Metadata)
    (a b i : Nat) (rest : List ContentChunk) :
    chunkEnds ({ content := content, source := src, source_type := ty,
                 metadata := mkChunkMeta md a b i } :: rest) = b :: chunkEnds rest := by
  simp [chunkEnds, metaNat_mkChunkMeta_end]

/-- Auxiliary: the emitted `chunk_end` values are strictly past the current
start and strictly increasing. -/
theorem chunkLoop_ends_facts (p : ContentProcessor) (text : List Char) (src ty : String)
    (md : Option Metadata) (hc : 1 ≤ p.chunk_size) :
    ∀ (fuel start idx : Nat) (l : List ContentChunk),
      chunkLoop p text src ty md fuel start idx = some l →
      (∀ n ∈ chunkEnds l, start < n) ∧ List.Chain' (· < ·) (chunkEnds l) := by
  intro fuel
  induction fuel with
  | zero => intro start idx l hl; simp [chunkLoop] at hl
  | succ f ih =>
    intro start idx l hl
    rw [chunkLoop] at hl
    by_cases hs : start < text.length
    · rw [if_pos hs] at hl
      by_cases hp : (pyStrip (slice text start (chunkEndAt p text start))).isEmpty
      · rw [if_pos hp] at hl
        obtain ⟨h1, h2⟩ := ih _ _ _ hl
        exact ⟨fun n hn => lt_trans (lt_nextStart p text start hc) (h1 n hn), h2⟩
      · rw [if_neg hp] at hl
        cases hr : chunkLoop p text src ty md f (nextStart p text start) (idx + 1) with
        | none => rw [hr] at hl; simp at hl
        | some rest =>
          rw [hr] at hl
          injection hl with hl
          subst hl
          obtain ⟨h1, h2⟩ := ih _ _ _ hr
          rw [chunkEnds_cons]
          constructor
          · intro n hn
            rcases List.mem_cons.mp hn with rfl | hn'
            · exact lt_chunkEndAt p text start hc
            · exact lt_trans (lt_nextStart p text start hc) (h1 n hn')
          · rw [List.chain'_cons']
            refine ⟨?_, h2⟩
            intro y hy
            have hyy : y ∈ chunkEnds rest := List.mem_of_mem_head? hy
            have h3 := h1 y hyy
            have h4 := chunkEndAt_le_nextStart p text start
            omega
    · rw [if_neg hs] at hl
      injection hl with hl
      subst hl
      simp [chunkEnds]

/-- Auxiliary: on whitespace-free text the final emitted chunk's recorded end
reaches at least the text length. -/
theorem chunkLoop_last_end (p : ContentProcessor) (text : List Char) (src ty : String)
    (md : Option Metadata) (hc : 1 ≤ p.chunk_size)
    (hw : ∀ c ∈ text, isPySpace c = false) :
    ∀ (fuel start idx : Nat) (l : List ContentChunk), start < text.length →
      chunkLoop p text src ty md fuel start idx = some l →
      ∃ b, (chunkEnds l).getLast? = some b ∧ text.length ≤ b := by
  intro fuel
  induction fuel with
  | zero => intro start idx l _ hl; simp [chunkLoop] at hl
  | succ f ih =>
    intro start idx l hs hl
    rw [chunkLoop, if_pos hs] at hl
    have hpieceeq : pyStrip (slice text start (chunkEndAt p text start))
        = slice text start (chunkEndAt p text start) := by
      apply pyStrip_eq_self
      intro c hcmem
      exact hw c (slice_sub text _ _ c hcmem)
    have hlen : (slice text start (chunkEndAt p text start)).length ≠ 0 := by
      rw [slice_len]
      have := lt_chunkEndAt p text start hc
      omega
    have hp : ¬ ((pyStrip (slice text start (chunkEndAt p text start))).isEmpty = true) := by
      rw [hpieceeq]
      cases hsl : slice text start (chunkEndAt p text start) with
      | nil => rw [hsl] at hlen; simp at hlen
      | cons a l2 => simp
    rw [if_neg hp] at hl
    cases hr : chunkLoop p text src ty md f (nextStart p text start) (idx + 1) with
    | none => rw [hr] at hl; simp at hl
    | some rest =>
      rw [hr] at hl
      injection hl with hl
      subst hl
      rw [chunkEnds_cons]
      by_cases hns : nextStart p text start < text.length
      · obtain ⟨b, hb1, hb2⟩ := ih _ _ _ hns hr
        refine ⟨b, ?_, hb2⟩
        cases hce : chunkEnds rest with
        | nil => rw [hce] at hb1; simp at hb1
        | cons x xs =>
          rw [hce] at hb1
          rw [List.getLast?_cons_cons]
          exact hb1
      · have hrest : rest = [] := by
          cases f with
          | zero => simp [chunkLoop] at hr
          | succ f2 =>
            rw [chunkLoop, if_neg hns] at hr
            exact (Option.some.inj hr).symm
        subst hrest
        refine ⟨chunkEndAt p text start, by simp [chunkEnds], ?_⟩
        by_contra hlt
        push_neg at hlt
        have h1 : start + p.chunk_size < text.length := by
          by_cases h2 : start + p.chunk_size < text.length
          · exact h2
          · unfold chunkEndAt at hlt
            rw [if_neg h2] at hlt
            exact absurd hlt h2
        have h3 : nextStart p text start < text.length := by
          unfold nextStart
          omega
        omega

/-- Auxiliary: the loop emits at most `ceil((L - start) / (C - O))` chunks. -/
theorem chunkLoop_count (p : ContentProcessor) (text : List Char) (src ty : String)
    (md : Option Metadata) (ho : p.overlap_size < p.chunk_size) :
    ∀ (fuel start idx : Nat) (l : List ContentChunk),
      chunkLoop p text src ty md fuel start idx = some l →
      l.length * (p.chunk_size - p.overlap_size) ≤
        (text.length - start) + (p.chunk_size - p.overlap_size - 1) := by
  intro fuel
  induction fuel with
  | zero => intro start idx l hl; simp [chunkLoop] at hl
  | succ f ih =>
    intro start idx l hl
    rw [chunkLoop] at hl
    by_cases hs : start < text.length
    · rw [if_pos hs] at hl
      have hlow := nextStart_lower p text start (le_of_lt ho)
      by_cases hp : (pyStrip (slice text start (chunkEndAt p text start))).isEmpty
      · rw [if_pos hp] at hl
        have hih := ih _ _ _ hl
        generalize hG : l.length * (p.chunk_size - p.overlap_size) = X at hih ⊢
        omega
      · rw [if_neg hp] at hl
        cases hr : chunkLoop p text src ty md f (nextStart p text start) (idx + 1) with
        | none => rw [hr] at hl; simp at hl
        | some rest =>
          rw [hr] at hl
          injection hl with hl
          subst hl
          have hih := ih _ _ _ hr
          have hd : 1 ≤ p.chunk_size - p.overlap_size := by omega
          simp only [List.length_cons]
          rw [Nat.succ_mul]
          rcases Nat.eq_zero_or_pos rest.length with h0 | hpos
          · rw [h0, Nat.zero_mul]
            omega
          · have hX : (p.chunk_size - p.overlap_size) ≤
                rest.length * (p.chunk_size - p.overlap_size) :=
              Nat.le_mul_of_pos_left _ hpos
            generalize hG : rest.length * (p.chunk_size - p.overlap_size) = X at hih hX ⊢
            omega
    · rw [if_neg hs] at hl
      injection hl with hl
      subst hl
      simp

/-- C5 (amended): for `chunk_size C > overlap_size O > 0`, a whitespace-free
text of length `L ≥ C` gives: `chunk_text` terminates; the `chunk_end`
metadata values are non-decreasing; the final chunk's recorded end is at
least `L` (not equal to `L`: it is `start + C` for the last chunk, past the
text end); and the number of chunks is at most `ceil(L / (C - O))`. -/
theorem chunk_termination_and_coverage (p : ContentProcessor) (text : List Char)
    (src ty : String) (md : Option Metadata)
    (ho : p.overlap_size < p.chunk_size) (hop : 0 < p.overlap_size)
    (hlen : p.chunk_size ≤ text.length)
    (hw : ∀ c ∈ text, isPySpace c = false) :
    ∃ l, chunk_text p text src ty md = some l ∧
      List.Chain' (· ≤ ·) (chunkEnds l) ∧
      (∃ b, (chunkEnds l).getLast? = some b ∧ text.length ≤ b) ∧
      l.length ≤ (text.length + (p.chunk_size - p.overlap_size) - 1) /
        (p.chunk_size - p.overlap_size) := by
  have hc : 1 ≤ p.chunk_size := by omega
  have ht : text ≠ [] := by
    intro h
    rw [h] at hlen
    simp at hlen
    omega
  have hcond : ¬ ((text.isEmpty || decide (text.length < p.chunk_size)) = true) := by
    simp [List.isEmpty_iff, ht]
    omega
  obtain ⟨l, hl⟩ := chunkLoop_total p text src ty md hc (text.length + 1) 0 0 (by omega)
  refine ⟨l, ?_, ?_, ?_, ?_⟩
  · unfold chunk_text
    rw [if_neg hcond]
    exact hl
  · exact ((chunkLoop_ends_facts p text src ty md hc _ _ _ _ hl).2).imp
      (fun a b hab => le_of_lt hab)
  · exact chunkLoop_last_end p text src ty md hc hw _ 0 0 l (by omega) hl
  · have hcount := chunkLoop_count p text src ty md ho _ 0 0 l hl
    rw [Nat.le_div_iff_mul_le (by omega : 0 < p.chunk_size - p.overlap_size)]
    generalize hG : l.length * (p.chunk_size - p.overlap_size) = X at hcount ⊢
    omega

/-- Witness for C5's amended theorem at the 250-'a' text. -/
theorem chunk_termination_and_coverage_witness :
    (p100x20.overlap_size < p100x20.chunk_size ∧ 0 < p100x20.overlap_size ∧
     p100x20.chunk_size ≤ aText250.length ∧ (∀ c ∈ aText250, isPySpace c = false)) ∧
    (∃ l, chunk_text p100x20 aText250 "doc" "file" none = some l ∧
      List.Chain' (· ≤ ·) (chunkEnds l) ∧
      (∃ b, (chunkEnds l).getLast? = some b ∧ aText250.length ≤ b) ∧
      l.length ≤ (aText250.length + (p100x20.chunk_size - p100x20.overlap_size) - 1) /
        (p100x20.chunk_size - p100x20.overlap_size)) :=
  ⟨⟨by decide, by decide, by decide, by decide⟩,
    chunk_termination_and_coverage p100x20 aText250 "doc" "file" none
      (by decide) (by decide) (by decide) (by decide)⟩

/-- C6 (amended): construction performs no validation and succeeds for every
`chunk_size`/`overlap_size` pair, including `chunk_size ≤ overlap_size`;
nevertheless `chunk_text` terminates for every `chunk_size ≥ 1` because the
advance takes the maximum with the strictly increasing chunk end. -/
theorem chunker_init_no_validation (csz osz : Nat) (text : List Char) (src ty : String)
    (md : Option Metadata) (hc : 1 ≤ csz) :
    ContentProcessor.init csz osz = .ok { chunk_size := csz, overlap_size := osz } ∧
    ∃ l, chunk_text { chunk_size := csz, overlap_size := osz } text src ty md = some l := by
  refine ⟨rfl, ?_⟩
  unfold chunk_text
  split
  · exact ⟨_, rfl⟩
  · exact chunkLoop_total { chunk_size := csz, overlap_size := osz } text src ty md hc
      _ 0 0 (by omega)

/-- Witness for C6's amended theorem at `chunk_size=10`, `overlap_size=20`. -/
theorem chunker_init_no_validation_witness :
    1 ≤ 10 ∧
    (ContentProcessor.init 10 20 = .ok { chunk_size := 10, overlap_size := 20 } ∧
     ∃ l, chunk_text { chunk_size := 10, overlap_size := 20 } aText250 "doc" "file" none
        = some l) :=
  ⟨by decide, chunker_init_no_validation 10 20 aText250 "doc" "file" none (by decide)⟩

/-- Auxiliary: a terminator kind found strictly past the window start wins
and breaks the loop. -/
theorem fsbLoop_cons_found (text : List Char) (ss se pe : Nat) (ek : List Char)
    (rest : List (List Char)) (pf : Nat)
    (hf : pyRfind ek text ss se = some pf) (hgt : ss < pf) :
    fsbLoop text ss se pe (ek :: rest) = pf + 1 := by
  simp only [fsbLoop, hf]
  rw [if_pos hgt]

/-- Auxiliary: a terminator kind absent (or not past the window start) is
skipped. -/
theorem fsbLoop_cons_skip (text : List Char) (ss se pe : Nat) (ek : List Char)
    (rest : List (List Char))
    (h : ∀ q, pyRfind ek text ss se = some q → q ≤ ss) :
    fsbLoop text ss se pe (ek :: rest) = fsbLoop text ss se pe rest := by
  cases hq : pyRfind ek text ss se with
  | none => simp only [fsbLoop, hq]
  | some q =>
    have hle := h q hq
    simp only [fsbLoop, hq]
    rw [if_neg (by omega)]

/-- Auxiliary: when every kind is absent or not past the window start, the
preferred end is kept. -/
theorem fsbLoop_all_skip (text : List Char) (ss se pe : Nat) :
    ∀ (es : List (List Char)),
      (∀ ek ∈ es, ∀ q, pyRfind ek text ss se = some q → q ≤ ss) →
      fsbLoop text ss se pe es = pe := by
  intro es
  induction es with
  | nil => intro _; rfl
  | cons ek rest ih =>
    intro h
    rw [fsbLoop_cons_skip text ss se pe ek rest (h ek (List.mem_cons_self _ _))]
    exact ih (fun x hx => h x (List.mem_cons_of_mem _ hx))

/-- C8 (amended): the boundary search tries the terminator kinds in the fixed
order '.', '!', '?', blank line and snaps to just after the rightmost
occurrence of the FIRST kind found strictly past the search-window start
(later kinds are consulted only when every earlier kind fails); if no kind
qualifies, the raw preferred end is kept. -/
theorem boundary_kind_priority (text : List Char) (start preferred_end : Nat) :
    (∀ pd, pyRfind ['.'] text (max start (preferred_end - 100))
        (min text.length (preferred_end + 100)) = some pd →
      max start (preferred_end - 100) < pd →
      find_sentence_boundary text start preferred_end = pd + 1) ∧
    (∀ pb, (∀ q, pyRfind ['.'] text (max start (preferred_end - 100))
          (min text.length (preferred_end + 100)) = some q →
        q ≤ max start (preferred_end - 100)) →
      pyRfind ['!'] text (max start (preferred_end - 100))
          (min text.length (preferred_end + 100)) = some pb →
      max start (preferred_end - 100) < pb →
      find_sentence_boundary text start preferred_end = pb + 1) ∧
    ((∀ ek ∈ sentenceEndings, ∀ q, pyRfind ek text (max start (preferred_end - 100))
          (min text.length (preferred_end + 100)) = some q →
        q ≤ max start (preferred_end - 100)) →
      find_sentence_boundary text start preferred_end = preferred_end) := by
  refine ⟨?_, ?_, ?_⟩
  · intro pd hf hgt
    unfold find_sentence_boundary sentenceEndings
    exact fsbLoop_cons_found _ _ _ _ _ _ _ hf hgt
  · intro pb hdot hf hgt
    unfold find_sentence_boundary sentenceEndings
    rw [fsbLoop_cons_skip _ _ _ _ _ _ hdot]
    exact fsbLoop_cons_found _ _ _ _ _ _ _ hf hgt
  · intro hall
    unfold find_sentence_boundary
    exact fsbLoop_all_skip _ _ _ _ _ hall

/-- Witness for C8's amended theorem on the '.'-then-'!' text. -/
theorem boundary_kind_priority_witness :
    find_sentence_boundary c8Text 0 10 = 2 + 1 :=
  (boundary_kind_priority c8Text 0 10).1 2 (by decide) (by decide)

end AgenticWorkflows
